import Mathlib

/-!
Shallow embedding of the chaosmesh-py SDK core (package `chaos_sdk`):
duration utilities, selector and experiment validation, the CRD payload
builder, the Kubernetes client's error translation and retry wrapper, the
condition-polling wait loops, and the `ChaosController` lifecycle.

Modelling conventions:
* Python strings are Lean `String`s; `None` becomes `Option.none`.
* Python dicts used as ordered JSON payloads become ordered association
  lists inside an inductive `JValue` (Python preserves insertion order).
* Exceptions become `Except` results; each distinct raise site is a
  distinct constructor of an error type.
* Wall-clock time inside poll loops is discretised: a status poll is
  instantaneous and each `time.sleep(poll_interval)` advances time by
  exactly `poll_interval`, so after `i` full iterations the elapsed time
  is `i * poll_interval`.  The outcome of the `i`-th `get_status` call is
  supplied by an oracle `polls : Nat → PollStep`.
-/

namespace ChaosSdk

/-! ## utils.py: `parse_duration` -/

/-- Numeric value of a list of decimal digit characters (the regex group
`(\d+)` of `parse_duration`). -/
def digitsVal (ds : List Char) : Nat :=
  ds.foldl (fun a c => 10 * a + (c.toNat - 48)) 0

/-- The `multipliers` dict of `parse_duration`, combined with the unit
alternative `(s|m|h)` of its regex: seconds per unit. -/
def unitMultiplier : Char → Option Nat
  | 's' => some 1
  | 'm' => some 60
  | 'h' => some 3600
  | _ => none

/-- `re.match(r'^(\d+)(s|m|h)$', duration)` on the character list: the
string must be one or more digits followed by a single unit letter. -/
def durationChars (cs : List Char) : Option (List Char × Char) :=
  match cs.getLast? with
  | none => none
  | some u =>
    let ds := cs.dropLast
    if !ds.isEmpty && ds.all Char.isDigit && (unitMultiplier u).isSome then
      some (ds, u)
    else
      none

/-- `utils.parse_duration`: parse `"30s"`-style strings to seconds, or
raise `ValueError` (modelled as `none`) when the regex does not match. -/
def parse_duration (s : String) : Option Nat :=
  match durationChars s.data with
  | none => none
  | some (ds, u) =>
    match unitMultiplier u with
    | none => none
    | some k => some (digitsVal ds * k)

/-! ## models/base.py: `validate_duration_format` -/

/-- The regex test `re.match(r'^\d+[smh]$', v)` of
`BaseChaos.validate_duration_format`. -/
def durationFormatMatches (s : String) : Bool :=
  match s.data.getLast? with
  | none => false
  | some u =>
    let ds := s.data.dropLast
    !ds.isEmpty && ds.all Char.isDigit && (u == 's' || u == 'm' || u == 'h')

/-- `BaseChaos.validate_duration_format`: `None` passes through, a
non-matching string raises `ValueError`, a matching string is returned. -/
def validate_duration_format (v : Option String) : Except String (Option String) :=
  match v with
  | none => .ok none
  | some s =>
    if !durationFormatMatches s then
      .error ("Invalid duration: " ++ s)
    else
      .ok (some s)

/-! ## models/enums.py: `ChaosMode` -/

/-- `ChaosMode` enum: target selection mode of an experiment. -/
inductive ChaosMode
  | one
  | all
  | fixed
  | fixed_percent
  | random_max_percent
  deriving DecidableEq, Repr

/-- The string value of each `ChaosMode` member. -/
def ChaosMode.value : ChaosMode → String
  | .one => "one"
  | .all => "all"
  | .fixed => "fixed"
  | .fixed_percent => "fixed-percent"
  | .random_max_percent => "random-max-percent"

/-! ## models/selector.py: `ChaosSelector` -/

/-- `ChaosSelector` fields.  Python dicts keep insertion order, so the
dict-valued matcher fields become ordered association lists; Python
truthiness of a dict/list is non-emptiness. -/
structure ChaosSelector where
  namespaces : List String := []
  label_selectors : List (String × String) := []
  pods : List (String × List String) := []
  field_selectors : List (String × String) := []
  annotation_selectors : List (String × String) := []
  deriving DecidableEq, Repr

/-- The two `AmbiguousSelectorError` raise sites of
`ChaosSelector.validate_mutual_exclusivity`. -/
inductive SelectorError
  | ambiguousSelection
  | noSelectionMethod
  deriving DecidableEq, Repr

/-- `ChaosSelector.validate_mutual_exclusivity`: reject when both
`label_selectors` and `pods` are non-empty, then reject when none of the
four matcher fields is non-empty, else return the selector. -/
def validate_mutual_exclusivity (s : ChaosSelector) :
    Except SelectorError ChaosSelector :=
  if !s.label_selectors.isEmpty && !s.pods.isEmpty then
    .error .ambiguousSelection
  else if !(!s.label_selectors.isEmpty || !s.pods.isEmpty ||
      !s.field_selectors.isEmpty || !s.annotation_selectors.isEmpty) then
    .error .noSelectionMethod
  else
    .ok s

/-! ## Python numeric literal parsing used by `validate_mode_value`

`int(str)` and `float(str)` are modelled on plain decimal literals with an
optional sign (the forms the SDK's numeric `value` strings use); exotic
accepted forms of CPython (embedded underscores, surrounding whitespace,
exponents, `inf`/`nan`) are out of the model, and the exact binary float
value is abstracted to the exact rational of the literal. -/

/-- `int(s)` on an optionally signed run of decimal digits. -/
def pyIntOpt (s : String) : Option Int :=
  match s.data with
  | [] => none
  | '-' :: ds =>
    if !ds.isEmpty && ds.all Char.isDigit then some (-(digitsVal ds : Int))
    else none
  | '+' :: ds =>
    if !ds.isEmpty && ds.all Char.isDigit then some (digitsVal ds : Int)
    else none
  | ds =>
    if ds.all Char.isDigit then some (digitsVal ds : Int) else none

/-- Split a character list at the first `'.'`, keeping what follows. -/
def splitAtDot : List Char → List Char × Option (List Char)
  | [] => ([], none)
  | '.' :: rest => ([], some rest)
  | c :: rest =>
    let (a, b) := splitAtDot rest
    (c :: a, b)

/-- Unsigned part of `float(s)`: digits with an optional fractional part,
at least one digit overall, no second dot. -/
def pyFloatBody (cs : List Char) : Option ℚ :=
  let (ip, fp?) := splitAtDot cs
  match fp? with
  | none =>
    if !ip.isEmpty && ip.all Char.isDigit then some (digitsVal ip : ℚ)
    else none
  | some fp =>
    if fp.contains '.' then none
    else if ip.isEmpty && fp.isEmpty then none
    else if ip.all Char.isDigit && fp.all Char.isDigit then
      some ((digitsVal (ip ++ fp) : ℚ) / (10 ^ fp.length))
    else none

/-- `float(s)` with an optional leading sign. -/
def pyFloatOpt (s : String) : Option ℚ :=
  match s.data with
  | '-' :: cs => (pyFloatBody cs).map (fun q => -q)
  | '+' :: cs => pyFloatBody cs
  | cs => pyFloatBody cs

/-! ## models/base.py: `validate_mode_value` -/

/-- The `modes_requiring_value` set of `validate_mode_value`. -/
def modeRequiresValue : ChaosMode → Bool
  | .fixed => true
  | .fixed_percent => true
  | .random_max_percent => true
  | _ => false

/-- The `percentage_modes` set of `validate_mode_value`. -/
def isPercentageMode : ChaosMode → Bool
  | .fixed_percent => true
  | .random_max_percent => true
  | _ => false

/-- `self.mode == ChaosMode.FIXED`. -/
def modeIsFixed : ChaosMode → Bool
  | .fixed => true
  | _ => false

/-- Python truthiness of `self.value` being false: `None` or `""`. -/
def valueIsFalsy : Option String → Bool
  | none => true
  | some s => s.isEmpty

/-- The `ValueError` raise sites of `validate_mode_value` (parse failures
are the translated re-raises, the others propagate unchanged). -/
inductive ModeValueError
  | missingValue
  | notNumericPercent
  | percentOutOfRange
  | notIntegerCount
  | nonPositiveCount
  deriving DecidableEq, Repr

/-- `BaseChaos.validate_mode_value`: require a value for
fixed/fixed-percent/random-max-percent modes, then for percentage modes
require `float(value) ∈ [0, 100]`, then for fixed mode require
`int(value) > 0`. -/
def validate_mode_value (mode : ChaosMode) (value : Option String) :
    Except ModeValueError Unit :=
  if modeRequiresValue mode && valueIsFalsy value then
    .error .missingValue
  else
    let percentCheck : Except ModeValueError Unit :=
      if isPercentageMode mode && !valueIsFalsy value then
        match pyFloatOpt (value.getD "") with
        | none => .error .notNumericPercent
        | some q =>
          if 0 ≤ q ∧ q ≤ 100 then .ok () else .error .percentOutOfRange
      else .ok ()
    match percentCheck with
    | .error e => .error e
    | .ok () =>
      if modeIsFixed mode && !valueIsFalsy value then
        match pyIntOpt (value.getD "") with
        | none => .error .notIntegerCount
        | some k => if k ≤ 0 then .error .nonPositiveCount else .ok ()
      else .ok ()

/-! ## JSON-like payload values

The dict payloads built by `to_crd_dict` / `to_crd` become an inductive
of ordered JSON values. -/

/-- Ordered JSON value: Python dicts keep insertion order. -/
inductive JValue
  | str (s : String)
  | nat (n : Nat)
  | arr (xs : List JValue)
  | obj (fields : List (String × JValue))

/-- `ChaosSelector.to_crd_dict`: emit each field under its camelCase CRD
key only when it is non-empty, in source order. -/
def to_crd_dict (s : ChaosSelector) : JValue :=
  let f0 : List (String × JValue) := []
  let f1 := if !s.namespaces.isEmpty then
    f0 ++ [("namespaces", JValue.arr (s.namespaces.map JValue.str))] else f0
  let f2 := if !s.label_selectors.isEmpty then
    f1 ++ [("labelSelectors",
      JValue.obj (s.label_selectors.map (fun kv => (kv.1, JValue.str kv.2))))]
    else f1
  let f3 := if !s.pods.isEmpty then
    f2 ++ [("pods",
      JValue.obj (s.pods.map (fun kv => (kv.1, JValue.arr (kv.2.map JValue.str)))))]
    else f2
  let f4 := if !s.field_selectors.isEmpty then
    f3 ++ [("fieldSelectors",
      JValue.obj (s.field_selectors.map (fun kv => (kv.1, JValue.str kv.2))))]
    else f3
  let f5 := if !s.annotation_selectors.isEmpty then
    f4 ++ [("annotationSelectors",
      JValue.obj (s.annotation_selectors.map (fun kv => (kv.1, JValue.str kv.2))))]
    else f4
  JValue.obj f5

/-! ## experiments/pod_chaos.py: the `PodChaos` experiment record -/

/-- `PodChaosAction` enum. -/
inductive PodChaosAction
  | pod_failure
  | pod_kill
  | container_kill
  deriving DecidableEq, Repr

/-- The string value of each `PodChaosAction` member. -/
def PodChaosAction.value : PodChaosAction → String
  | .pod_failure => "pod-failure"
  | .pod_kill => "pod-kill"
  | .container_kill => "container-kill"

/-- Field state of a `PodChaos` instance (`BaseChaos` fields plus the
`PodChaos`-specific ones).  `namespace` is a Lean keyword, hence the
trailing underscore. -/
structure PodChaos where
  name : Option String := none
  namespace_ : String := "default"
  selector : ChaosSelector
  mode : ChaosMode := .one
  value : Option String := none
  duration : Option String := none
  action : PodChaosAction
  container_names : Option (List String) := none
  grace_period : Option Nat := none
  scheduler : Option JValue := none
  remote_cluster : Option String := none

/-- `utils.generate_unique_name`: `f"{prefix}-{int(time.time())}"`. -/
def generate_unique_name (pre : String) (timestamp : Nat) : String :=
  pre ++ "-" ++ toString timestamp

/-- `BaseChaos.generate_name_if_missing` for a `PodChaos` instance: when
`name` is `None`, set it to `generate_unique_name(kind.lower())` at the
current timestamp; otherwise leave the record unchanged. -/
def generate_name_if_missing (e : PodChaos) (timestamp : Nat) : PodChaos :=
  match e.name with
  | some _ => e
  | none => { e with name := some (generate_unique_name "podchaos" timestamp) }

/-- Python truthiness of `self.container_names`: `None` or `[]` is falsy. -/
def containerNamesFalsy : Option (List String) → Bool
  | none => true
  | some xs => xs.isEmpty

/-- `PodChaos._build_action_spec`: `action` always, then
`containerNames`, `gracePeriod`, `scheduler`, `remoteCluster` when set. -/
def build_action_spec (e : PodChaos) : List (String × JValue) :=
  let s0 := [("action", JValue.str e.action.value)]
  let s1 := if !containerNamesFalsy e.container_names then
    s0 ++ [("containerNames",
      JValue.arr ((e.container_names.getD []).map JValue.str))]
    else s0
  let s2 := match e.grace_period with
    | some g => s1 ++ [("gracePeriod", JValue.nat g)]
    | none => s1
  let s3 := match e.scheduler with
    | some sch => s2 ++ [("scheduler", sch)]
    | none => s2
  match e.remote_cluster with
  | some rc => s3 ++ [("remoteCluster", JValue.str rc)]
  | none => s3

/-- The fields of the global `ChaosConfig` read by `to_crd`. -/
structure SdkConfig where
  api_group : String := "chaos-mesh.org"
  api_version : String := "v1alpha1"
  deriving DecidableEq, Repr

/-- `BaseChaos.to_crd` for a `PodChaos` instance: selector and mode first,
then `value` and `duration` when present, then the action-specific fields
appended by `spec.update(...)`; wrapped in the apiVersion/kind/metadata
envelope. -/
def to_crd (cfg : SdkConfig) (e : PodChaos) : JValue :=
  let spec0 : List (String × JValue) :=
    [("selector", to_crd_dict e.selector), ("mode", JValue.str e.mode.value)]
  let spec1 := match e.value with
    | some v => spec0 ++ [("value", JValue.str v)]
    | none => spec0
  let spec2 := match e.duration with
    | some d => spec1 ++ [("duration", JValue.str d)]
    | none => spec1
  let spec := spec2 ++ build_action_spec e
  JValue.obj
    [("apiVersion", JValue.str (cfg.api_group ++ "/" ++ cfg.api_version)),
     ("kind", JValue.str "PodChaos"),
     ("metadata", JValue.obj
       [("name", JValue.str (e.name.getD "")),
        ("namespace", JValue.str e.namespace_)]),
     ("spec", JValue.obj spec)]

/-! ## The condition-polling wait loops

`BaseChaos.wait_for_injection` (models/base.py) and
`ChaosManager.wait_for_injection` (manager.py) run the same
`while time.time() - start_time < timeout` loop: poll `get_status`, treat
`ChaosResourceNotFoundError` as transient, scan the `conditions` list for
`type == "AllInjected"` with `status == "True"`, sleep `poll_interval`,
and raise `ExperimentTimeoutError` once the guard fails.  Under the
discrete-time convention the guard at iteration `i` reads
`i * poll_interval < timeout`, so the loop runs `⌈timeout/poll_interval⌉`
iterations and the elapsed time at the raise is that count times
`poll_interval`. -/

/-- One entry of the `status["conditions"]` list. -/
structure StatusCondition where
  ctype : String
  cstatus : String
  deriving DecidableEq, Repr

/-- Outcome of one `get_status` call, supplied by the oracle: the resource
is absent (`ChaosResourceNotFoundError`) or present with a conditions
list. -/
inductive PollStep
  | notFound
  | found (conditions : List StatusCondition)
  deriving DecidableEq, Repr

/-- The inner `for condition in conditions` scan: return as soon as some
condition has `type == "AllInjected"` and `status == "True"`. -/
def allInjectedTrue (conditions : List StatusCondition) : Bool :=
  conditions.any (fun c => c.ctype == "AllInjected" && c.cstatus == "True")

/-- Whether one poll iteration ends the wait: a `notFound` poll never
does (the except branch only logs), a `found` poll does exactly when the
conditions scan succeeds. -/
def pollSatisfied : PollStep → Bool
  | .notFound => false
  | .found conditions => allInjectedTrue conditions

/-- The data interpolated into an `ExperimentTimeoutError` message by a
wait loop: the experiment name and elapsed seconds appear in both raise
sites; `selectorCtx` is the selector rendering, present only when the
format string interpolates `self.selector`. -/
structure TimeoutInfo where
  name : String
  elapsed : Nat
  selectorCtx : Option String
  deriving DecidableEq, Repr

/-- Result of a wait loop: `True` returned after `elapsed` seconds, or
`ExperimentTimeoutError` raised with the interpolated data. -/
inductive WaitOutcome
  | injected (elapsed : Nat)
  | timedOut (info : TimeoutInfo)
  deriving DecidableEq, Repr

/-- Number of loop iterations: the count of `i` with
`i * poll_interval < timeout`, i.e. `⌈timeout/poll_interval⌉` for a
positive `poll_interval`. -/
def numPolls (timeout poll_interval : Nat) : Nat :=
  (timeout + poll_interval - 1) / poll_interval

/-- Iterations of `BaseChaos.wait_for_injection` starting at index `i`
with `fuel` guard-passing iterations left; the timeout raise interpolates
the name, the elapsed time and `self.selector`. -/
def base_wait_go (polls : Nat → PollStep) (poll_interval : Nat)
    (name selectorStr : String) : Nat → Nat → WaitOutcome
  | i, 0 => .timedOut ⟨name, i * poll_interval, some selectorStr⟩
  | i, fuel + 1 =>
    if pollSatisfied (polls i) then .injected (i * poll_interval)
    else base_wait_go polls poll_interval name selectorStr (i + 1) fuel

/-- `BaseChaos.wait_for_injection` under the discrete-time convention. -/
def base_wait_for_injection (polls : Nat → PollStep)
    (name selectorStr : String) (timeout poll_interval : Nat) : WaitOutcome :=
  base_wait_go polls poll_interval name selectorStr 0
    (numPolls timeout poll_interval)

/-- Iterations of `ChaosManager.wait_for_injection`: identical loop body,
but the timeout raise `"Chaos %s injection timeout after %.1fs"`
interpolates only the name and the elapsed time — no selector. -/
def mgr_wait_go (polls : Nat → PollStep) (poll_interval : Nat)
    (name : String) : Nat → Nat → WaitOutcome
  | i, 0 => .timedOut ⟨name, i * poll_interval, none⟩
  | i, fuel + 1 =>
    if pollSatisfied (polls i) then .injected (i * poll_interval)
    else mgr_wait_go polls poll_interval name (i + 1) fuel

/-- `ChaosManager.wait_for_injection` under the discrete-time
convention.  The experiment's selector is in scope (a field of the
experiment argument) but the timeout message does not use it. -/
def mgr_wait_for_injection (polls : Nat → PollStep)
    (name _selectorStr : String) (timeout poll_interval : Nat) : WaitOutcome :=
  mgr_wait_go polls poll_interval name 0 (numPolls timeout poll_interval)

/-! ## client.py: error translation, delete idempotence, retry wrapper -/

/-- SDK exceptions that `ChaosClient` raises out of get/delete/list. -/
inductive SdkError
  | notFoundError (kind name namespaceName : String)
  | connectionError (status : Nat)
  deriving DecidableEq, Repr

/-- Outcome of one underlying Kubernetes API call: a response value or an
`ApiException` with an HTTP status. -/
inductive ApiOutcome (α : Type)
  | ok (response : α)
  | apiException (status : Nat)
  deriving DecidableEq, Repr

/-- `ChaosClient._handle_api_exception`: every unhandled `ApiException`
becomes a `ChaosMeshConnectionError` carrying the HTTP status. -/
def handle_api_exception (status : Nat) : SdkError :=
  .connectionError status

/-- Body of `ChaosClient.get_chaos_resource` (the function wrapped by the
tenacity decorator) on the `attempt`-th API call: a 404 `ApiException`
becomes `ChaosResourceNotFoundError`, any other `ApiException` goes to
`_handle_api_exception`. -/
def get_body (api : Nat → ApiOutcome JValue) (kind namespaceName name : String)
    (attempt : Nat) : Except SdkError JValue :=
  match api attempt with
  | .ok r => .ok r
  | .apiException status =>
    if status = 404 then .error (.notFoundError kind name namespaceName)
    else .error (handle_api_exception status)

/-- The decorator's retry predicate
`retry_if_exception_type(ApiException)`: true only for a raw
`ApiException`.  The translated SDK errors are not `ApiException`s. -/
def retriesOn : SdkError → Bool
  | .notFoundError _ _ _ => false
  | .connectionError _ => false

/-- Tenacity retry loop: run attempt `a`; on an exception satisfying the
retry predicate, sleep and rerun while attempts remain, else re-raise.
Returns the outcome together with the number of attempts made. -/
def retry_go {α : Type} (shouldRetry : SdkError → Bool)
    (call : Nat → Except SdkError α) : Nat → Nat → Except SdkError α × Nat
  | a, 0 => (call a, a)
  | a, fuel + 1 =>
    match call a with
    | .ok v => (.ok v, a)
    | .error e =>
      if shouldRetry e then retry_go shouldRetry call (a + 1) fuel
      else (.error e, a)

/-- `ChaosClient.get_chaos_resource` with its `@retry` wrapper:
`stop_after_attempt(retry_max_attempts)` allows `retry_max_attempts`
attempts in total, numbered from 1. -/
def get_chaos_resource (retry_max_attempts : Nat)
    (api : Nat → ApiOutcome JValue) (kind namespaceName name : String) :
    Except SdkError JValue × Nat :=
  retry_go retriesOn (get_body api kind namespaceName name) 1
    (retry_max_attempts - 1)

/-- Result of `ChaosClient.delete_chaos_resource`: it returns `None` on
success and on 404 (where it only logs a warning), raising only the
translated connection error otherwise. -/
inductive DeleteOutcome
  | returned (warnedNotFound : Bool)
  | raised (e : SdkError)
  deriving DecidableEq, Repr

/-- `ChaosClient.delete_chaos_resource`: a 404 `ApiException` is treated
as success (warning logged, nothing raised); any other `ApiException`
goes to `_handle_api_exception`. -/
def delete_chaos_resource (apiResult : ApiOutcome Unit)
    (_kind _namespaceName _name : String) : DeleteOutcome :=
  match apiResult with
  | .ok _ => .returned false
  | .apiException status =>
    if status = 404 then .returned true
    else .raised (handle_api_exception status)

/-! ## controller.py: `ChaosController`

Experiments are identified by name; the tracked list
`self.active_experiments` is a `List String`.  Whether `chaos.apply`,
`chaos.delete`, `chaos.wait_for_injection` and `chaos.wait_for_deletion`
raise on a given experiment is supplied by boolean oracles. -/

/-- Which call of a controller method raised (the exception that
propagates to the caller). -/
inductive ControllerError
  | applyFailed
  | waitForInjectionFailed
  | deleteFailed
  | waitForDeletionFailed
  deriving DecidableEq, Repr

/-- `ChaosController.inject`: `chaos.apply`, then append to
`active_experiments`, then optionally `chaos.wait_for_injection`; an
exception at any step propagates, leaving the mutations made so far.
Returns the new tracked list and the propagating exception, if any. -/
def controller_inject (applyOk waitOk : Bool) (wait : Bool) (chaos : String)
    (active : List String) : List String × Option ControllerError :=
  if !applyOk then
    (active, some .applyFailed)
  else
    let active2 := active ++ [chaos]
    if wait && !waitOk then
      (active2, some .waitForInjectionFailed)
    else
      (active2, none)

/-- `ChaosController.remove`: `chaos.delete`, then optionally
`chaos.wait_for_deletion`, then remove the first occurrence of the
experiment from `active_experiments` if present; the `except` clause
logs and re-raises, so an exception before the list mutation leaves the
list untouched. -/
def controller_remove (deleteOk waitOk : Bool) (wait_for_deletion : Bool)
    (chaos : String) (active : List String) :
    List String × Option ControllerError :=
  if !deleteOk then
    (active, some .deleteFailed)
  else if wait_for_deletion && !waitOk then
    (active, some .waitForDeletionFailed)
  else
    (if chaos ∈ active then active.erase chaos else active, none)

/-- What `ChaosController.__exit__` produces: the experiments whose
delete was attempted in order, the `cleanup_errors` aggregate, the
tracked list after `self.active_experiments.clear()`, and the returned
suppression flag. -/
structure ExitOutcome where
  attempted : List String
  cleanup_errors : List String
  active_after : List String
  suppress : Bool
  deriving DecidableEq, Repr

/-- `ChaosController.__exit__`: for each tracked experiment attempt
`chaos.delete`; a raising delete appends
`f"Failed to delete {name}: ..."` to `cleanup_errors` and continues; a
raising `wait_for_deletion` is caught by the inner `try` and only
logged; afterwards the list is cleared and `False` is returned.
`excPropagating` is the `exc_type` argument: an exception already
propagating from the scope body; it is only logged. -/
def controller_exit (deleteOk _waitOk : String → Bool)
    (_excPropagating : Option String) (active : List String) : ExitOutcome :=
  let step := fun (acc : List String × List String) (chaos : String) =>
    if deleteOk chaos then
      (acc.1 ++ [chaos], acc.2)
    else
      (acc.1 ++ [chaos], acc.2 ++ ["Failed to delete " ++ chaos])
  let (attempted, cleanup_errors) := active.foldl step ([], [])
  { attempted := attempted
    cleanup_errors := cleanup_errors
    active_after := []
    suppress := false }

/-! ## Theorems -/

/-- C6: Deleting a resource that does not exist on the control plane (404
on the delete call) is treated as success: `delete_chaos_resource` logs a
warning and returns without raising, for every kind/namespace/name. -/
theorem delete_not_found_is_success_c6 :
    ∀ kind namespaceName name,
      delete_chaos_resource (.apiException 404) kind namespaceName name =
        .returned true := by
  intro kind namespaceName name
  rfl

/-- The `cleanup_errors`/delete fold of `__exit__`, generalised over the
accumulator. -/
lemma controller_exit_foldl (deleteOk : String → Bool) (active : List String) :
    ∀ a b : List String,
      active.foldl
        (fun (acc : List String × List String) (chaos : String) =>
          if deleteOk chaos then
            (acc.1 ++ [chaos], acc.2)
          else
            (acc.1 ++ [chaos], acc.2 ++ ["Failed to delete " ++ chaos]))
        (a, b) =
      (a ++ active,
        b ++ (active.filter (fun c => !deleteOk c)).map
          (fun c => "Failed to delete " ++ c)) := by
  induction active with
  | nil => intro a b; simp
  | cons h t ih =>
    intro a b
    by_cases hd : deleteOk h
    · simp [hd, ih, List.append_assoc]
    · simp [hd, ih, List.append_assoc]

/-- C1: Controller scope exit: for every tracked experiment the delete is
attempted even when an earlier delete raised; exactly the delete-step
failures are aggregated into `cleanup_errors`; the tracked list is
unconditionally cleared; and `__exit__` itself never raises and returns
`False`, so it never suppresses an exception propagating from the scope
body — all regardless of which waits fail and of any in-flight
exception. -/
theorem controller_exit_c1 :
    ∀ (deleteOk waitOk : String → Bool) (excPropagating : Option String)
      (active : List String),
      controller_exit deleteOk waitOk excPropagating active =
        { attempted := active
          cleanup_errors := (active.filter (fun c => !deleteOk c)).map
            (fun c => "Failed to delete " ++ c)
          active_after := []
          suppress := false } := by
  intro deleteOk waitOk excPropagating active
  have h := controller_exit_foldl deleteOk active [] []
  simp [controller_exit, h]

/-- C10: `inject` appends the experiment to the tracked list right after
a successful apply and before the optional wait, so the experiment is
tracked even when the wait raises; `remove` drops the experiment from
the tracked list only when both the delete and the optional
wait-for-deletion succeed, and leaves the list unchanged on any
failure. -/
theorem controller_tracking_c10 :
    (∀ (applyOk waitOk wait : Bool) (chaos : String) (active : List String),
      applyOk = true →
        (controller_inject applyOk waitOk wait chaos active).1 =
          active ++ [chaos]) ∧
    (∀ (deleteOk waitOk wfd : Bool) (chaos : String) (active : List String),
      ((controller_remove deleteOk waitOk wfd chaos active).2 ≠ none →
        (controller_remove deleteOk waitOk wfd chaos active).1 = active) ∧
      ((controller_remove deleteOk waitOk wfd chaos active).2 = none →
        (controller_remove deleteOk waitOk wfd chaos active).1 =
          (if chaos ∈ active then active.erase chaos else active))) := by
  constructor
  · intro applyOk waitOk wait chaos active happly
    subst happly
    cases waitOk <;> cases wait <;> simp [controller_inject]
  · intro deleteOk waitOk wfd chaos active
    cases deleteOk <;> cases waitOk <;> cases wfd <;>
      simp [controller_remove]

/-- Witness for C10: with a failing wait-for-injection the experiment is
still appended, and a failing delete leaves the tracked list unchanged. -/
theorem controller_tracking_c10_witness :
    (controller_inject true false true "exp-a" ["exp-0"]).1 =
      ["exp-0"] ++ ["exp-a"] ∧
    (controller_remove false true true "exp-0" ["exp-0"]).1 = ["exp-0"] := by
  constructor
  · exact controller_tracking_c10.1 true false true "exp-a" ["exp-0"] rfl
  · exact (controller_tracking_c10.2 false true true "exp-0" ["exp-0"]).1
      (by decide)

/-- The duration regex on a digit run followed by a unit letter. -/
lemma durationChars_concat (ds : List Char) (u : Char)
    (hne : ds ≠ []) (hd : ds.all Char.isDigit = true)
    (hu : (unitMultiplier u).isSome = true) :
    durationChars (ds ++ [u]) = some (ds, u) := by
  unfold durationChars
  rw [List.getLast?_concat, List.dropLast_concat]
  simp [hne, hd, hu]

/-- `parse_duration` on a digit run followed by a recognised unit. -/
lemma parse_duration_concat (ds : List Char) (u : Char) (k : Nat)
    (hne : ds ≠ []) (hd : ds.all Char.isDigit = true)
    (hu : unitMultiplier u = some k) :
    parse_duration (String.mk (ds ++ [u])) = some (digitsVal ds * k) := by
  unfold parse_duration
  have h1 : (String.mk (ds ++ [u])).data = ds ++ [u] := rfl
  rw [h1, durationChars_concat ds u hne hd (by rw [hu]; rfl)]
  simp [hu]

/-- C9: `"45x"` fails duration validation while `"45s"` passes;
`parse_duration` sends `"30s"` to 30, `"5m"` to 300 and `"2h"` to 7200;
and in general a digit run `n` followed by `s`/`m`/`h` parses to
`n * 1` / `n * 60` / `n * 3600` seconds. -/
theorem duration_handling_c9 :
    validate_duration_format (some "45x") = .error "Invalid duration: 45x" ∧
    validate_duration_format (some "45s") = .ok (some "45s") ∧
    parse_duration "30s" = some 30 ∧
    parse_duration "5m" = some 300 ∧
    parse_duration "2h" = some 7200 ∧
    (∀ ds : List Char, ds ≠ [] → ds.all Char.isDigit = true →
      parse_duration (String.mk (ds ++ ['s'])) = some (digitsVal ds * 1) ∧
      parse_duration (String.mk (ds ++ ['m'])) = some (digitsVal ds * 60) ∧
      parse_duration (String.mk (ds ++ ['h'])) = some (digitsVal ds * 3600)) := by
  refine ⟨rfl, rfl, rfl, rfl, rfl, ?_⟩
  intro ds hne hd
  exact ⟨parse_duration_concat ds 's' 1 hne hd rfl,
    parse_duration_concat ds 'm' 60 hne hd rfl,
    parse_duration_concat ds 'h' 3600 hne hd rfl⟩

/-- Witness for C9: the general conversion instantiated at `"45m"`. -/
theorem duration_handling_c9_witness :
    parse_duration (String.mk (['4', '5'] ++ ['m'])) =
      some (digitsVal ['4', '5'] * 60) :=
  (duration_handling_c9.2.2.2.2.2 ['4', '5'] (by decide) (by decide)).2.1

/-- C4: a selector with both `label_selectors` and `pods` non-empty is
rejected with `AmbiguousSelectorError` (the mutual-exclusivity raise); a
selector with all four matcher fields empty is rejected (the
no-selection-method raise, also an `AmbiguousSelectorError`); a selector
with exactly one of the four matcher fields populated is accepted. -/
theorem selector_validation_c4 :
    (∀ s : ChaosSelector, s.label_selectors ≠ [] → s.pods ≠ [] →
      validate_mutual_exclusivity s = .error .ambiguousSelection) ∧
    (∀ s : ChaosSelector, s.label_selectors = [] → s.pods = [] →
      s.field_selectors = [] → s.annotation_selectors = [] →
      validate_mutual_exclusivity s = .error .noSelectionMethod) ∧
    (∀ s : ChaosSelector,
      (if s.label_selectors.isEmpty then 0 else 1) +
        (if s.pods.isEmpty then 0 else 1) +
        (if s.field_selectors.isEmpty then 0 else 1) +
        (if s.annotation_selectors.isEmpty then 0 else 1) = 1 →
      validate_mutual_exclusivity s = .ok s) := by
  refine ⟨?_, ?_, ?_⟩
  · intro s h1 h2
    simp [validate_mutual_exclusivity, List.isEmpty_iff, h1, h2]
  · intro s h1 h2 h3 h4
    simp [validate_mutual_exclusivity, h1, h2, h3, h4]
  · intro s hcount
    cases h1 : s.label_selectors.isEmpty <;>
      cases h2 : s.pods.isEmpty <;>
        cases h3 : s.field_selectors.isEmpty <;>
          cases h4 : s.annotation_selectors.isEmpty <;>
            simp [h1, h2, h3, h4] at hcount ⊢ <;>
              simp [validate_mutual_exclusivity, h1, h2, h3, h4]

/-- Witness for C4: label+pods together are rejected, an all-empty
selector is rejected, a label-only selector is accepted. -/
theorem selector_validation_c4_witness :
    validate_mutual_exclusivity
      { label_selectors := [("app", "web")], pods := [("default", ["p1"])] } =
      .error .ambiguousSelection ∧
    validate_mutual_exclusivity {} = .error .noSelectionMethod ∧
    validate_mutual_exclusivity { label_selectors := [("app", "web")] } =
      .ok { label_selectors := [("app", "web")] } := by
  refine ⟨?_, ?_, ?_⟩
  · exact selector_validation_c4.1 _ (by decide) (by decide)
  · exact selector_validation_c4.2.1 _ rfl rfl rfl rfl
  · exact selector_validation_c4.2.2 _ (by decide)

/-- C3 (code bug): the tenacity retry wrapper of `get_chaos_resource`
retries only on raw `ApiException`s, but the wrapped body translates
every `ApiException` before it escapes, so with the default
`retry_max_attempts = 3` a transient HTTP 500 on the first call is
surfaced as a `ChaosMeshConnectionError` after exactly one attempt —
no retry ever happens (contradicting the method's own docstring and the
spec).  The untranslated-to-retryable path also shows in the general
form: whatever the first attempt's `ApiException` status, the call ends
on attempt 1.  A 404 is translated to `ChaosResourceNotFoundError`,
likewise unretried (that half of the claim matches the code). -/
theorem get_retry_never_fires_c3 :
    get_chaos_resource 3 (fun _ => .apiException 500) "PodChaos" "default"
      "pod-kill-1" = (.error (.connectionError 500), 1) ∧
    get_chaos_resource 3 (fun _ => .apiException 404) "PodChaos" "default"
      "pod-kill-1" = (.error (.notFoundError "PodChaos" "pod-kill-1"
        "default"), 1) := by
  exact ⟨rfl, rfl⟩

/-- The base wait loop times out when no iteration in its window is
satisfied, raising with elapsed `(i + fuel) * poll_interval` and the
selector. -/
lemma base_wait_go_timeout (polls : Nat → PollStep) (p : Nat)
    (name sel : String) :
    ∀ fuel i : Nat,
      (∀ j, i ≤ j → j < i + fuel → pollSatisfied (polls j) = false) →
      base_wait_go polls p name sel i fuel =
        .timedOut ⟨name, (i + fuel) * p, some sel⟩ := by
  intro fuel
  induction fuel with
  | zero => intro i _; simp [base_wait_go]
  | succ f ih =>
    intro i h
    have h0 : pollSatisfied (polls i) = false := h i le_rfl (by omega)
    calc base_wait_go polls p name sel i (f + 1)
        = base_wait_go polls p name sel (i + 1) f := by
          simp [base_wait_go, h0]
      _ = .timedOut ⟨name, (i + 1 + f) * p, some sel⟩ :=
          ih (i + 1) (fun j hj1 hj2 => h j (by omega) (by omega))
      _ = .timedOut ⟨name, (i + (f + 1)) * p, some sel⟩ := by
          rw [show i + 1 + f = i + (f + 1) from by omega]

/-- The base wait loop returns at the first satisfied iteration inside
its window. -/
lemma base_wait_go_first (polls : Nat → PollStep) (p : Nat)
    (name sel : String) :
    ∀ fuel i k : Nat, i ≤ k → k < i + fuel →
      (∀ j, i ≤ j → j < k → pollSatisfied (polls j) = false) →
      pollSatisfied (polls k) = true →
      base_wait_go polls p name sel i fuel = .injected (k * p) := by
  intro fuel
  induction fuel with
  | zero => intro i k h1 h2 _ _; exact absurd h2 (by omega)
  | succ f ih =>
    intro i k h1 h2 h3 h4
    by_cases hik : i = k
    · subst hik
      simp [base_wait_go, h4]
    · have h0 : pollSatisfied (polls i) = false := h3 i le_rfl (by omega)
      calc base_wait_go polls p name sel i (f + 1)
          = base_wait_go polls p name sel (i + 1) f := by
            simp [base_wait_go, h0]
        _ = .injected (k * p) :=
            ih (i + 1) k (by omega) (by omega)
              (fun j hj1 hj2 => h3 j (by omega) hj2) h4

/-- The manager wait loop times out like the base one, but its raise
carries no selector. -/
lemma mgr_wait_go_timeout (polls : Nat → PollStep) (p : Nat)
    (name : String) :
    ∀ fuel i : Nat,
      (∀ j, i ≤ j → j < i + fuel → pollSatisfied (polls j) = false) →
      mgr_wait_go polls p name i fuel =
        .timedOut ⟨name, (i + fuel) * p, none⟩ := by
  intro fuel
  induction fuel with
  | zero => intro i _; simp [mgr_wait_go]
  | succ f ih =>
    intro i h
    have h0 : pollSatisfied (polls i) = false := h i le_rfl (by omega)
    calc mgr_wait_go polls p name i (f + 1)
        = mgr_wait_go polls p name (i + 1) f := by
          simp [mgr_wait_go, h0]
      _ = .timedOut ⟨name, (i + 1 + f) * p, none⟩ :=
          ih (i + 1) (fun j hj1 hj2 => h j (by omega) (by omega))
      _ = .timedOut ⟨name, (i + (f + 1)) * p, none⟩ := by
          rw [show i + 1 + f = i + (f + 1) from by omega]

/-- The manager wait loop returns at the first satisfied iteration
inside its window. -/
lemma mgr_wait_go_first (polls : Nat → PollStep) (p : Nat)
    (name : String) :
    ∀ fuel i k : Nat, i ≤ k → k < i + fuel →
      (∀ j, i ≤ j → j < k → pollSatisfied (polls j) = false) →
      pollSatisfied (polls k) = true →
      mgr_wait_go polls p name i fuel = .injected (k * p) := by
  intro fuel
  induction fuel with
  | zero => intro i k h1 h2 _ _; exact absurd h2 (by omega)
  | succ f ih =>
    intro i k h1 h2 h3 h4
    by_cases hik : i = k
    · subst hik
      simp [mgr_wait_go, h4]
    · have h0 : pollSatisfied (polls i) = false := h3 i le_rfl (by omega)
      calc mgr_wait_go polls p name i (f + 1)
          = mgr_wait_go polls p name (i + 1) f := by
            simp [mgr_wait_go, h0]
        _ = .injected (k * p) :=
            ih (i + 1) k (by omega) (by omega)
              (fun j hj1 hj2 => h3 j (by omega) hj2) h4

/-- C2-counterexample: the claim requires the timeout error to carry the
selector context, but `ChaosManager.wait_for_injection` at a concrete
always-absent resource raises an `ExperimentTimeoutError` whose message
interpolates only the name and elapsed time — no selector at all. -/
theorem wait_injection_c2_counterexample :
    mgr_wait_for_injection (fun _ => .notFound) "podchaos-1" "Labels: app=web"
      4 2 = .timedOut ⟨"podchaos-1", 4, none⟩ ∧
    ¬ ∃ (info : TimeoutInfo) (s : String),
      mgr_wait_for_injection (fun _ => .notFound) "podchaos-1"
        "Labels: app=web" 4 2 = .timedOut info ∧
      info.selectorCtx = some s := by
  constructor
  · rfl
  · rintro ⟨info, s, heq, hsel⟩
    rw [show mgr_wait_for_injection (fun _ => .notFound) "podchaos-1"
      "Labels: app=web" 4 2 = .timedOut ⟨"podchaos-1", 4, none⟩ from rfl]
      at heq
    injection heq with h
    rw [← h] at hsel
    exact Option.noConfusion hsel

/-- C2 (amended): for both `BaseChaos.wait_for_injection` and
`ChaosManager.wait_for_injection`, a `NotFoundError` from `get_status`
is transient — polls that raise it do not abort the wait, which still
succeeds at a later satisfied poll inside the timeout window; and when
no poll inside the window ever shows `AllInjected=True`, both raise an
`ExperimentTimeoutError` carrying the elapsed time, with the selector
context carried by the base-model error only (the manager's carries the
name and elapsed time but no selector). -/
theorem wait_injection_c2 :
    ∀ (polls polls2 : Nat → PollStep) (name sel : String)
      (timeout poll_interval k : Nat),
      0 < poll_interval →
      (k < numPolls timeout poll_interval →
        (∀ j, j < k → polls j = .notFound) →
        pollSatisfied (polls k) = true →
        base_wait_for_injection polls name sel timeout poll_interval =
          .injected (k * poll_interval) ∧
        mgr_wait_for_injection polls name sel timeout poll_interval =
          .injected (k * poll_interval)) ∧
      ((∀ i, i < numPolls timeout poll_interval →
          pollSatisfied (polls2 i) = false) →
        base_wait_for_injection polls2 name sel timeout poll_interval =
          .timedOut ⟨name, numPolls timeout poll_interval * poll_interval,
            some sel⟩ ∧
        mgr_wait_for_injection polls2 name sel timeout poll_interval =
          .timedOut ⟨name, numPolls timeout poll_interval * poll_interval,
            none⟩) := by
  intro polls polls2 name sel timeout poll_interval k _
  constructor
  · intro hk hnf hsat
    have hbefore : ∀ j, 0 ≤ j → j < k → pollSatisfied (polls j) = false := by
      intro j _ hj
      rw [hnf j hj]
      rfl
    constructor
    · exact base_wait_go_first polls poll_interval name sel
        (numPolls timeout poll_interval) 0 k (Nat.zero_le k) (by omega)
        hbefore hsat
    · exact mgr_wait_go_first polls poll_interval name
        (numPolls timeout poll_interval) 0 k (Nat.zero_le k) (by omega)
        hbefore hsat
  · intro hall
    have hwin : ∀ j, 0 ≤ j → j < 0 + numPolls timeout poll_interval →
        pollSatisfied (polls2 j) = false := by
      intro j _ hj
      exact hall j (by omega)
    constructor
    · have h := base_wait_go_timeout polls2 poll_interval name sel
        (numPolls timeout poll_interval) 0 hwin
      rwa [Nat.zero_add] at h
    · have h := mgr_wait_go_timeout polls2 poll_interval name
        (numPolls timeout poll_interval) 0 hwin
      rwa [Nat.zero_add] at h

/-- Witness for C2: with `timeout = 4`, `poll_interval = 2`, a first poll
that raises not-found followed by a satisfied poll succeeds after 2s;
an always-absent resource times out after 4s, the base error carrying
the selector and the manager error carrying none. -/
theorem wait_injection_c2_witness :
    base_wait_for_injection
      (fun i => if i = 0 then PollStep.notFound
        else .found [⟨"AllInjected", "True"⟩]) "pc" "Labels: app=web" 4 2 =
      .injected 2 ∧
    base_wait_for_injection (fun _ => .notFound) "pc" "Labels: app=web" 4 2 =
      .timedOut ⟨"pc", 4, some "Labels: app=web"⟩ ∧
    mgr_wait_for_injection (fun _ => .notFound) "pc" "Labels: app=web" 4 2 =
      .timedOut ⟨"pc", 4, none⟩ := by
  have h := wait_injection_c2
    (fun i => if i = 0 then PollStep.notFound
      else .found [⟨"AllInjected", "True"⟩])
    (fun _ => .notFound) "pc" "Labels: app=web" 4 2 1 (by decide)
  have hnf : ∀ j, j < 1 →
      (fun i => if i = 0 then PollStep.notFound
        else .found [⟨"AllInjected", "True"⟩]) j = .notFound := by
    intro j hj
    have hj0 : j = 0 := by omega
    subst hj0
    rfl
  have hall : ∀ i, i < numPolls 4 2 →
      pollSatisfied ((fun _ => PollStep.notFound) i) = false := by
    intro i _
    rfl
  have htime := h.2 hall
  exact ⟨(h.1 (by decide) hnf (by decide)).1, htime.1, htime.2⟩

/-- C8: both wait loops return success on the first poll whose
conditions list contains `{type: "AllInjected", status: "True"}`, no
matter what other conditions (including `"False"` ones) the list
holds. -/
theorem wait_first_success_c8 :
    ∀ (polls : Nat → PollStep) (name sel : String)
      (timeout poll_interval k : Nat) (conditions : List StatusCondition),
      k < numPolls timeout poll_interval →
      (∀ j, j < k → pollSatisfied (polls j) = false) →
      polls k = .found conditions →
      (⟨"AllInjected", "True"⟩ : StatusCondition) ∈ conditions →
      base_wait_for_injection polls name sel timeout poll_interval =
        .injected (k * poll_interval) ∧
      mgr_wait_for_injection polls name sel timeout poll_interval =
        .injected (k * poll_interval) := by
  intro polls name sel timeout poll_interval k conditions hk hbefore hfound
    hmem
  have hsat : pollSatisfied (polls k) = true := by
    rw [hfound]
    simp only [pollSatisfied, allInjectedTrue]
    exact List.any_eq_true.mpr ⟨⟨"AllInjected", "True"⟩, hmem, by decide⟩
  have hbefore' : ∀ j, 0 ≤ j → j < k → pollSatisfied (polls j) = false :=
    fun j _ hj => hbefore j hj
  constructor
  · exact base_wait_go_first polls poll_interval name sel
      (numPolls timeout poll_interval) 0 k (Nat.zero_le k) (by omega)
      hbefore' hsat
  · exact mgr_wait_go_first polls poll_interval name
      (numPolls timeout poll_interval) 0 k (Nat.zero_le k) (by omega)
      hbefore' hsat

/-- Witness for C8: a first poll whose conditions list also holds
`"False"` conditions around `AllInjected=True` succeeds immediately. -/
theorem wait_first_success_c8_witness :
    base_wait_for_injection
      (fun _ => .found [⟨"Selected", "False"⟩, ⟨"AllInjected", "True"⟩,
        ⟨"AllRecovered", "False"⟩]) "pc" "sel" 4 2 = .injected 0 ∧
    mgr_wait_for_injection
      (fun _ => .found [⟨"Selected", "False"⟩, ⟨"AllInjected", "True"⟩,
        ⟨"AllRecovered", "False"⟩]) "pc" "sel" 4 2 = .injected 0 := by
  exact wait_first_success_c8
    (fun _ => .found [⟨"Selected", "False"⟩, ⟨"AllInjected", "True"⟩,
      ⟨"AllRecovered", "False"⟩]) "pc" "sel" 4 2 0
    [⟨"Selected", "False"⟩, ⟨"AllInjected", "True"⟩,
      ⟨"AllRecovered", "False"⟩]
    (by decide) (fun j hj => absurd hj (Nat.not_lt_zero j)) rfl (by decide)

/-- C5: every mode that requires a value rejects an absent or empty one;
`fixed` accepts exactly the values that parse as a positive integer
(`"0"` and `"-1"` fail, `"3"` succeeds); the two percentage modes accept
exactly the values that parse as a float in `[0, 100]` (`"150"` fails,
`"50"` succeeds). -/
theorem mode_value_validation_c5 :
    (∀ (mode : ChaosMode) (v : Option String),
      modeRequiresValue mode = true → valueIsFalsy v = true →
      validate_mode_value mode v = .error .missingValue) ∧
    validate_mode_value .fixed (some "0") = .error .nonPositiveCount ∧
    validate_mode_value .fixed (some "-1") = .error .nonPositiveCount ∧
    validate_mode_value .fixed (some "3") = .ok () ∧
    validate_mode_value .fixed_percent (some "150") =
      .error .percentOutOfRange ∧
    validate_mode_value .fixed_percent (some "50") = .ok () ∧
    validate_mode_value .random_max_percent (some "150") =
      .error .percentOutOfRange ∧
    validate_mode_value .random_max_percent (some "50") = .ok () ∧
    (∀ s : String, s.isEmpty = false →
      (validate_mode_value .fixed (some s) = .ok () ↔
        ∃ k : Int, pyIntOpt s = some k ∧ 0 < k)) ∧
    (∀ (mode : ChaosMode) (s : String), isPercentageMode mode = true →
      s.isEmpty = false →
      (validate_mode_value mode (some s) = .ok () ↔
        ∃ q : ℚ, pyFloatOpt s = some q ∧ 0 ≤ q ∧ q ≤ 100)) := by
  refine ⟨?_, rfl, rfl, rfl, rfl, rfl, rfl, rfl, ?_, ?_⟩
  · intro mode v h1 h2
    simp [validate_mode_value, h1, h2]
  · intro s hs
    rcases hk : pyIntOpt s with _ | k
    · constructor
      · intro h
        simp [validate_mode_value, hs, hk, modeRequiresValue, valueIsFalsy,
          isPercentageMode, modeIsFixed] at h
      · rintro ⟨k, hk', _⟩
        exact Option.noConfusion hk'
    · by_cases hkpos : k ≤ 0
      · constructor
        · intro h
          simp [validate_mode_value, hs, hk, hkpos, modeRequiresValue,
            valueIsFalsy, isPercentageMode, modeIsFixed] at h
        · rintro ⟨k', hk', hkpos'⟩
          injection hk' with hkk
          subst hkk
          exact absurd hkpos' (by omega)
      · constructor
        · intro _
          exact ⟨k, rfl, by omega⟩
        · intro _
          simp [validate_mode_value, hs, hk, hkpos, modeRequiresValue,
            valueIsFalsy, isPercentageMode, modeIsFixed]
  · intro mode s hm hs
    cases mode <;> simp [isPercentageMode] at hm
    all_goals {
      rcases hq2 : pyFloatOpt s with _ | q
      · constructor
        · intro h
          simp [validate_mode_value, hs, hq2, modeRequiresValue,
            valueIsFalsy, isPercentageMode, modeIsFixed] at h
        · rintro ⟨q, hq', _⟩
          exact Option.noConfusion hq'
      · by_cases hrange : 0 ≤ q ∧ q ≤ 100
        · constructor
          · intro _
            exact ⟨q, rfl, hrange.1, hrange.2⟩
          · intro _
            simp [validate_mode_value, hs, hq2, hrange, modeRequiresValue,
              valueIsFalsy, isPercentageMode, modeIsFixed]
        · constructor
          · intro h
            simp [validate_mode_value, hs, hq2, hrange, modeRequiresValue,
              valueIsFalsy, isPercentageMode, modeIsFixed] at h
          · rintro ⟨q', hq', hr1, hr2⟩
            injection hq' with hqq
            subst hqq
            exact absurd ⟨hr1, hr2⟩ hrange }

/-- Witness for C5: a missing value for `fixed` is rejected, `"2"` is a
valid fixed count, `"25.5"` is a valid fixed-percent value. -/
theorem mode_value_validation_c5_witness :
    validate_mode_value .fixed none = .error .missingValue ∧
    validate_mode_value .fixed (some "2") = .ok () ∧
    validate_mode_value .fixed_percent (some "25.5") = .ok () := by
  refine ⟨mode_value_validation_c5.1 .fixed none rfl rfl, ?_, ?_⟩
  · exact (mode_value_validation_c5.2.2.2.2.2.2.2.2.1 "2" rfl).mpr
      ⟨2, rfl, by omega⟩
  · refine (mode_value_validation_c5.2.2.2.2.2.2.2.2.2 .fixed_percent "25.5"
      rfl rfl).mpr ⟨(51 : ℚ) / 2, ?_, by norm_num, by norm_num⟩
    show pyFloatBody ['2', '5', '.', '5'] = some ((51 : ℚ) / 2)
    norm_num [pyFloatBody, splitAtDot, digitsVal]
    refine ⟨by decide, ⟨by decide, by decide⟩, ?_⟩
    norm_num [show ('2'.toNat - 48) = 2 from rfl,
      show ('5'.toNat - 48) = 5 from rfl]

/-- With an explicit name, the name-generating validator is the
identity. -/
lemma generate_name_if_missing_of_some (e : PodChaos) (n : String) (t : Nat)
    (hn : e.name = some n) : generate_name_if_missing e t = e := by
  unfold generate_name_if_missing
  rw [hn]

/-- C7: for an experiment with an explicit name, building the CRD
payload is deterministic and idempotent — two builds at different
construction timestamps yield structurally identical payloads — and the
payload has the `{apiVersion, kind, metadata: {name, namespace},
spec: {selector, mode, ...}}` envelope. -/
theorem to_crd_deterministic_c7 :
    ∀ (cfg : SdkConfig) (e : PodChaos) (n : String) (t1 t2 : Nat),
      e.name = some n →
      to_crd cfg (generate_name_if_missing e t1) =
        to_crd cfg (generate_name_if_missing e t2) ∧
      ∃ specFields : List (String × JValue),
        to_crd cfg (generate_name_if_missing e t1) =
          JValue.obj
            [("apiVersion",
              JValue.str (cfg.api_group ++ "/" ++ cfg.api_version)),
             ("kind", JValue.str "PodChaos"),
             ("metadata", JValue.obj
               [("name", JValue.str n),
                ("namespace", JValue.str e.namespace_)]),
             ("spec", JValue.obj
               (("selector", to_crd_dict e.selector) ::
                ("mode", JValue.str e.mode.value) :: specFields))] := by
  intro cfg e n t1 t2 hn
  rw [generate_name_if_missing_of_some e n t1 hn,
    generate_name_if_missing_of_some e n t2 hn]
  refine ⟨rfl, ?_⟩
  refine ⟨(match e.value with
      | some v => [("value", JValue.str v)]
      | none => ([] : List (String × JValue))) ++
    (match e.duration with
      | some d => [("duration", JValue.str d)]
      | none => ([] : List (String × JValue))) ++
    build_action_spec e, ?_⟩
  cases hv : e.value <;> cases hd : e.duration <;>
    simp [to_crd, hn, hv, hd, List.append_assoc]

/-- Witness for C7: a concretely named pod-kill experiment builds the
same payload at timestamps 5 and 9. -/
theorem to_crd_deterministic_c7_witness :
    to_crd {} (generate_name_if_missing
      { name := some "pk-1",
        selector := { label_selectors := [("app", "web")] },
        action := PodChaosAction.pod_kill } 5) =
    to_crd {} (generate_name_if_missing
      { name := some "pk-1",
        selector := { label_selectors := [("app", "web")] },
        action := PodChaosAction.pod_kill } 9) :=
  (to_crd_deterministic_c7 {}
    { name := some "pk-1",
      selector := { label_selectors := [("app", "web")] },
      action := PodChaosAction.pod_kill } "pk-1" 5 9 rfl).1

end ChaosSdk
